import Mathlib

/-!
Shallow embedding of the retro camera application (src/src/App.tsx).

The app keeps, in component state: the acquired media stream, the
selected filter, the photo gallery, a capturing flag, a facing mode,
a flash flag, a film counter (initially 24) and a loading flag.  The
functions capturePhoto, deletePhoto, switchCamera and the shutter
button guard are translated directly from the source; the 2-D canvas,
the CSS filter semantics and the wall clock are external collaborators
and enter as explicit parameters.
-/

namespace RetroCam

/-- FilterType from App.tsx line 4: the six filter identities. -/
inductive FilterType
  | none
  | vintage
  | sepia
  | polaroid
  | noir
  | faded
deriving DecidableEq, Repr

/-- Facing mode of the camera, App.tsx line 29: user (front) or environment (back). -/
inductive FacingMode
  | user
  | environment
deriving DecidableEq, Repr

/-- One entry of the filter catalog (App.tsx lines 13-20): identity tag,
human label, and the CSS filter expression applied to the canvas. -/
structure FilterDescriptor where
  name : FilterType
  label : String
  css : String
deriving DecidableEq, Repr

/-- The fixed six-member filter catalog, App.tsx lines 13-20. -/
def filters : List FilterDescriptor :=
  [ { name := FilterType.none, label := "Natural", css := "none" },
    { name := FilterType.vintage, label := "70s Film",
      css := "sepia(0.3) contrast(1.1) saturate(1.3) brightness(1.05)" },
    { name := FilterType.sepia, label := "Sepia", css := "sepia(0.8) contrast(1.1)" },
    { name := FilterType.polaroid, label := "Polaroid",
      css := "contrast(1.1) brightness(1.1) saturate(1.2)" },
    { name := FilterType.noir, label := "Noir",
      css := "grayscale(1) contrast(1.3) brightness(0.9)" },
    { name := FilterType.faded, label := "Faded",
      css := "contrast(0.9) saturate(0.8) brightness(1.1)" } ]

/-- A raster of pixels: the video frame exposed by the video element
(videoWidth, videoHeight, pixel data), and likewise the canvas content.
Pixel values are abstract naturals. -/
structure Frame where
  width : Nat
  height : Nat
  pixel : Nat → Nat → Nat

/-- Result of canvas.toDataURL: the requested MIME type, the requested
encoder quality, and the raster that was encoded.  App.tsx line 98 asks
for image/jpeg at quality 0.9. -/
structure EncodedImage where
  mime : String
  quality : ℚ
  raster : Frame

/-- Photo record, App.tsx lines 6-11.  The id is produced by
Date.now().toString() and the timestamp is the wall clock at capture
(epoch milliseconds, as a natural number). -/
structure Photo where
  id : String
  dataUrl : EncodedImage
  filter : FilterType
  timestamp : Nat

/-- The component state of App (App.tsx lines 23-32).  The stream is an
abstract handle number; filmCount is an integer as in the source. -/
structure AppState where
  stream : Option Nat
  currentFilter : FilterType
  photos : List Photo
  isCapturing : Bool
  showGallery : Bool
  selectedPhoto : Option Photo
  facingMode : FacingMode
  flashActive : Bool
  filmCount : Int
  isLoading : Bool

/-- Initial component state (the useState initializers, App.tsx lines 23-32). -/
def initialState : AppState :=
  { stream := Option.none
    currentFilter := FilterType.vintage
    photos := []
    isCapturing := false
    showGallery := false
    selectedPhoto := Option.none
    facingMode := FacingMode.environment
    flashActive := false
    filmCount := 24
    isLoading := true }

/-- External inputs consumed by one call of capturePhoto: the video
element with its current frame (if mounted), presence of the canvas
element and of its 2-D context, the wall clock (Date.now, epoch
milliseconds) and the pointwise pixel semantics the browser gives to a
CSS filter string. -/
structure CaptureEnv where
  video : Option Frame
  canvasPresent : Bool
  ctxPresent : Bool
  now : Nat
  cssApply : String → Nat → Nat

/-- CSS string the capture uses, App.tsx lines 88-89: look the current
filter up in the catalog and fall back to the string none. -/
def cssFor (ft : FilterType) : String :=
  match filters.find? (fun f => f.name == ft) with
  | Option.some f => f.css
  | Option.none => "none"

/-- Drawing step of capturePhoto, App.tsx lines 85-96: the canvas is
sized to the video frame, ctx.filter is set to the CSS string, and when
mirrored (facing mode user) the translate(width, 0) and scale(-1, 1)
transform makes device column x sample source column width - 1 - x.
ctx.drawImage then fills the raster through the filter. -/
def drawCapture (cssApply : String → Nat → Nat) (css : String) (mirrored : Bool)
    (video : Frame) : Frame :=
  { width := video.width
    height := video.height
    pixel := fun x y =>
      cssApply css (video.pixel (if mirrored then video.width - 1 - x else x) y) }

/-- The Photo object built by capturePhoto, App.tsx lines 98-105: id is
Date.now().toString(), dataUrl is the canvas encoded as image/jpeg at
quality 0.9, filter is the current filter, timestamp the wall clock. -/
def newPhotoOf (env : CaptureEnv) (s : AppState) (video : Frame) : Photo :=
  { id := toString env.now
    dataUrl :=
      { mime := "image/jpeg"
        quality := (9 : ℚ) / 10
        raster := drawCapture env.cssApply (cssFor s.currentFilter)
          (s.facingMode == FacingMode.user) video }
    filter := s.currentFilter
    timestamp := env.now }

/-- capturePhoto, App.tsx lines 71-111.  Returns early when the video
element, the canvas element, or film is missing (line 72); sets the
capturing and flash flags; returns after those flags if the 2-D context
is unavailable (line 83); otherwise prepends the new Photo and
decrements the film counter.  The two setTimeout callbacks are the
separate timer events below. -/
def capturePhoto (env : CaptureEnv) (s : AppState) : AppState :=
  match env.video with
  | Option.none => s
  | Option.some video =>
    if env.canvasPresent = false then s
    else if s.filmCount ≤ 0 then s
    else
      let s1 := { s with isCapturing := true, flashActive := true }
      if env.ctxPresent = false then s1
      else
        { s1 with photos := newPhotoOf env s video :: s.photos
                  filmCount := s.filmCount - 1 }

/-- The 150 ms flash timer callback, App.tsx line 77. -/
def flashTimerFire (s : AppState) : AppState :=
  { s with flashActive := false }

/-- The 300 ms capturing timer callback, App.tsx line 110. -/
def capturingTimerFire (s : AppState) : AppState :=
  { s with isCapturing := false }

/-- deletePhoto, App.tsx lines 124-128: drop every photo whose id equals
photoId, close the detail modal, and restore one exposure capped at 24. -/
def deletePhoto (photoId : String) (s : AppState) : AppState :=
  { s with photos := s.photos.filter (fun p => p.id != photoId)
           selectedPhoto := Option.none
           filmCount := min (s.filmCount + 1) 24 }

/-- switchCamera, App.tsx lines 113-115: toggle the facing mode. -/
def switchCamera (s : AppState) : AppState :=
  { s with facingMode :=
      if s.facingMode == FacingMode.user then FacingMode.environment
      else FacingMode.user }

/-- Disabled predicate of the shutter button, App.tsx line 234. -/
def shutterDisabled (s : AppState) : Bool :=
  s.isCapturing || decide (s.filmCount ≤ 0) || s.isLoading

/-- A user press of the shutter button (App.tsx lines 231-239): a click
on a disabled button fires nothing, otherwise onClick runs capturePhoto. -/
def shutterPress (env : CaptureEnv) (s : AppState) : AppState :=
  if shutterDisabled s then s else capturePhoto env s

/-- Horizontal flip of a raster around its vertical center, stated from
the specification wording, to compare against the drawing the code does. -/
def hflip (f : Frame) : Frame :=
  { width := f.width
    height := f.height
    pixel := fun x y => f.pixel (f.width - 1 - x) y }

/-!
Camera stream lifecycle (startCamera and the facing-mode effect,
App.tsx lines 37-69).  The platform side is modelled by a counter of
granted handles and the set of handles whose tracks have been stopped;
the app side keeps the current stream, the facing mode, the loading
flag, and the stream value captured by the active effect closure (the
stream state at the render in which the effect ran), which is what the
effect cleanup stops.
-/

/-- State of the camera acquisition machine. -/
structure CameraState where
  stream : Option Nat
  facingMode : FacingMode
  isLoading : Bool
  effectStream : Option Nat
  nextHandle : Nat
  stopped : Finset Nat

/-- stream.getTracks().forEach(track.stop()): stopping the tracks of a
handle, a no-op on an absent handle and idempotent on a stopped one. -/
def stopTracks (h : Option Nat) (stopped : Finset Nat) : Finset Nat :=
  match h with
  | Option.none => stopped
  | Option.some k => insert k stopped

/-- startCamera on the success path, App.tsx lines 37-60: set loading,
stop the tracks of the prior stream if any, obtain a fresh handle from
the platform, store it, clear loading. -/
def startCameraOk (c : CameraState) : CameraState :=
  { c with isLoading := false
           stopped := stopTracks c.stream c.stopped
           stream := Option.some c.nextHandle
           nextHandle := c.nextHandle + 1 }

/-- The facing-mode effect runs startCamera; its cleanup closure
captures the stream state of the render it ran in (App.tsx lines 62-69). -/
def mountEffect (c : CameraState) : CameraState :=
  startCameraOk { c with effectStream := c.stream }

/-- Toggling the facing mode, App.tsx line 114. -/
def toggleFacing (m : FacingMode) : FacingMode :=
  if m == FacingMode.user then FacingMode.environment else FacingMode.user

/-- A facing-direction switch: setFacingMode toggles, the departing
effect cleanup stops the tracks of its captured stream, and the effect
re-runs startCamera (App.tsx lines 62-69 and 113-115). -/
def switchCameraEffect (c : CameraState) : CameraState :=
  let c1 := { c with facingMode := toggleFacing c.facingMode }
  let c2 := { c1 with stopped := stopTracks c1.effectStream c1.stopped }
  mountEffect c2

/-- Camera machine state before the first render, starting front-facing. -/
def initCamera : CameraState :=
  { stream := Option.none
    facingMode := FacingMode.user
    isLoading := true
    effectStream := Option.none
    nextHandle := 0
    stopped := ∅ }

/-- Number of handles the platform has granted. -/
def acquireCount (c : CameraState) : Nat := c.nextHandle

/-- Number of distinct handles whose tracks have been stopped. -/
def releaseCount (c : CameraState) : Nat := c.stopped.card

/-- Handles granted and not yet stopped. -/
def outstanding (c : CameraState) : Finset Nat :=
  Finset.range c.nextHandle \ c.stopped

/-- A capture environment whose video, canvas and context are all ready. -/
def readyEnv (cssApply : String → Nat → Nat) (frame : Frame) (now : Nat) : CaptureEnv :=
  { video := Option.some frame
    canvasPresent := true
    ctxPresent := true
    now := now
    cssApply := cssApply }

/-- A run of successive shutter captures at the given wall-clock times. -/
def captureRun (cssApply : String → Nat → Nat) (frame : Frame)
    (ts : List Nat) (s : AppState) : AppState :=
  ts.foldl (fun st t => capturePhoto (readyEnv cssApply frame t) st) s

/-- Identity pixel semantics for CSS filter strings, used in concrete runs. -/
def idApply : String → Nat → Nat := fun _ p => p

/-- A small concrete asymmetric test frame. -/
def demoFrame : Frame :=
  { width := 2, height := 2, pixel := fun x y => x + 2 * y }

/-- A ready capture environment over the demo frame at wall time t. -/
def demoEnv (t : Nat) : CaptureEnv := readyEnv idApply demoFrame t

/-- The fresh session after capturing three photos at times 1, 2, 3. -/
def scenarioAfter3 : AppState :=
  capturePhoto (demoEnv 3) (capturePhoto (demoEnv 2) (capturePhoto (demoEnv 1) initialState))

/-- A session that is out of film. -/
def emptyFilm : AppState :=
  { initialState with filmCount := 0, isLoading := false }

/-- A session whose 300 ms capturing flag is still active. -/
def capturingState : AppState :=
  { initialState with isCapturing := true, isLoading := false }

/-- A fresh back-facing session with the noir filter selected. -/
def noirStart : AppState :=
  { initialState with currentFilter := FilterType.noir, isLoading := false }

end RetroCam

namespace RetroCam

/-- Helper: on a ready environment with film left, capturePhoto takes the
success path and its full effect is the flag updates, the prepended
Photo, and the decremented counter. -/
theorem capturePhoto_ready (env : CaptureEnv) (s : AppState) (frame : Frame)
    (hv : env.video = Option.some frame) (hc : env.canvasPresent = true)
    (hx : env.ctxPresent = true) (hf : 0 < s.filmCount) :
    capturePhoto env s =
      { s with isCapturing := true
               flashActive := true
               photos := newPhotoOf env s frame :: s.photos
               filmCount := s.filmCount - 1 } := by
  unfold capturePhoto
  rw [hv, hc, hx]
  simp [Int.not_le.mpr hf]

end RetroCam

namespace RetroCam

/-!
Injectivity of the decimal printing of natural numbers.  Photo ids are
produced by Date.now().toString(), embedded as toString on Nat, which
unfolds to Nat.repr; the lemmas below show distinct wall-clock times
give distinct id strings.
-/

/-- Helper: the ten decimal digit characters are pairwise distinct. -/
theorem digitChar_inj_lt :
    ∀ a, a < 10 → ∀ c, c < 10 → Nat.digitChar a = Nat.digitChar c → a = c := by decide

theorem toDigitsCore_shift (b : Nat) (hb : 2 ≤ b) :
    ∀ n f (l : List Char), n < f →
      Nat.toDigitsCore b f n l = Nat.toDigitsCore b f n [] ++ l := by
  intro n
  induction n using Nat.strong_induction_on with
  | _ n ih =>
    intro f l hf
    cases f with
    | zero => exact absurd hf (Nat.not_lt_zero n)
    | succ f =>
      simp only [Nat.toDigitsCore]
      by_cases h0 : n / b = 0
      · simp [h0]
      · simp only [h0, if_false]
        have hn : 0 < n := by
          by_contra h
          push_neg at h
          interval_cases n
          simp at h0
        have hlt : n / b < n := Nat.div_lt_self hn (by omega)
        rw [ih (n / b) hlt (f) _ (by omega),
            ih (n / b) hlt (f) [Nat.digitChar (n % b)] (by omega)]
        simp

theorem toDigitsCore_length_lt (b : Nat) :
    ∀ f n (l : List Char), 0 < f → l.length < (Nat.toDigitsCore b f n l).length := by
  intro f
  induction f with
  | zero => intro n l h; exact absurd h (by omega)
  | succ f ih =>
    intro n l _
    simp only [Nat.toDigitsCore]
    by_cases h0 : n / b = 0
    · simp [h0]
    · simp only [h0, if_false]
      cases f with
      | zero => simp [Nat.toDigitsCore]
      | succ f =>
        calc l.length < (Nat.digitChar (n % b) :: l).length := by simp
          _ < _ := ih (n / b) _ (by omega)

theorem toDigitsCore_inj (b : Nat) (hb2 : 2 ≤ b) (hb10 : b ≤ 10) :
    ∀ m n f g, m < f → n < g →
      Nat.toDigitsCore b f m [] = Nat.toDigitsCore b g n [] → m = n := by
  intro m
  induction m using Nat.strong_induction_on with
  | _ m ih =>
    intro n f g hf hg heq
    cases f with
    | zero => exact absurd hf (Nat.not_lt_zero m)
    | succ f =>
      cases g with
      | zero => exact absurd hg (Nat.not_lt_zero n)
      | succ g =>
        simp only [Nat.toDigitsCore] at heq
        by_cases h0 : m / b = 0 <;> by_cases h1 : n / b = 0
        · simp only [h0, h1, if_true] at heq
          have hm : m < b := (Nat.div_eq_zero_iff (by omega)).mp h0
          have hn : n < b := (Nat.div_eq_zero_iff (by omega)).mp h1
          have e1 : m % b = m := Nat.mod_eq_of_lt hm
          have e2 : n % b = n := Nat.mod_eq_of_lt hn
          have := digitChar_inj_lt (m % b) (by omega) (n % b) (by omega)
            (by simpa using heq)
          omega
        · exfalso
          simp only [h0, h1, if_true, if_false] at heq
          have hn0 : 0 < n := by
            by_contra h
            push_neg at h
            interval_cases n
            simp at h1
          have hng : n / b < g := by
            have : n / b < n := Nat.div_lt_self hn0 (by omega)
            omega
          rw [toDigitsCore_shift b hb2 (n / b) g _ hng] at heq
          have hlen := congrArg List.length heq
          simp only [List.length_append, List.length_cons, List.length_nil] at hlen
          have hpos := toDigitsCore_length_lt b g (n / b) ([] : List Char) (by omega)
          simp only [List.length_nil] at hpos
          omega
        · exfalso
          simp only [h0, h1, if_true, if_false] at heq
          have hm0 : 0 < m := by
            by_contra h
            push_neg at h
            interval_cases m
            simp at h0
          have hmf : m / b < f := by
            have : m / b < m := Nat.div_lt_self hm0 (by omega)
            omega
          rw [toDigitsCore_shift b hb2 (m / b) f _ hmf] at heq
          have hlen := congrArg List.length heq
          simp only [List.length_append, List.length_cons, List.length_nil] at hlen
          have hpos := toDigitsCore_length_lt b f (m / b) ([] : List Char) (by omega)
          simp only [List.length_nil] at hpos
          omega
        · simp only [h0, h1, if_false] at heq
          have hm0 : 0 < m := by
            by_contra h; push_neg at h; interval_cases m; simp at h0
          have hn0 : 0 < n := by
            by_contra h; push_neg at h; interval_cases n; simp at h1
          have hmlt : m / b < m := Nat.div_lt_self hm0 (by omega)
          have hnlt : n / b < n := Nat.div_lt_self hn0 (by omega)
          have hmf : m / b < f := by omega
          have hng : n / b < g := by omega
          rw [toDigitsCore_shift b hb2 (m / b) f _ hmf,
              toDigitsCore_shift b hb2 (n / b) g _ hng] at heq
          have hparts := List.append_inj' heq (by simp)
          have hmm := Nat.mod_lt m (show 0 < b by omega)
          have hnm := Nat.mod_lt n (show 0 < b by omega)
          have hdig : m % b = n % b := by
            have := digitChar_inj_lt (m % b) (by omega) (n % b) (by omega)
              (by simpa using hparts.2)
            omega
          have hdiv : m / b = n / b :=
            ih (m / b) hmlt (n / b) f g hmf hng hparts.1
          have h2 := Nat.div_add_mod m b
          have h3 := Nat.div_add_mod n b
          rw [hdiv, hdig] at h2
          omega

theorem nat_repr_injective : Function.Injective Nat.repr := by
  intro m n h
  have hlist : Nat.toDigits 10 m = Nat.toDigits 10 n := by
    have := congrArg String.data h
    simpa [Nat.repr, List.asString] using this
  exact toDigitsCore_inj 10 (by omega) (by omega) m n (m + 1) (n + 1)
    (Nat.lt_succ_self m) (Nat.lt_succ_self n) (by simpa [Nat.toDigits] using hlist)

theorem nat_toString_injective : Function.Injective (fun n : Nat => toString n) :=
  nat_repr_injective

end RetroCam

namespace RetroCam

/-- Claim C1: for every session state with exposuresRemaining = 0,
Capture is a no-op: the whole state is returned unchanged, so the
gallery length and the film counter are unchanged and no Photo is
produced. -/
theorem capture_zero_exposures_noop (env : CaptureEnv) (s : AppState)
    (h : s.filmCount = 0) :
    capturePhoto env s = s ∧
      (capturePhoto env s).photos.length = s.photos.length ∧
      (capturePhoto env s).filmCount = s.filmCount := by
  have hs : capturePhoto env s = s := by
    unfold capturePhoto
    cases hv : env.video with
    | none => rfl
    | some video =>
      by_cases hc : env.canvasPresent = false
      · simp [hc]
      · simp [hc, h]
  exact ⟨hs, by rw [hs], by rw [hs]⟩

/-- Witness for C1 on a concrete out-of-film session. -/
theorem capture_zero_exposures_noop_witness :
    capturePhoto (demoEnv 1) emptyFilm = emptyFilm ∧
      (capturePhoto (demoEnv 1) emptyFilm).photos.length = emptyFilm.photos.length ∧
      (capturePhoto (demoEnv 1) emptyFilm).filmCount = emptyFilm.filmCount :=
  capture_zero_exposures_noop (demoEnv 1) emptyFilm rfl

/-- Claim C7: a shutter press arriving while the capturing flag from a
prior capture is still active hits a disabled button, so the state is
returned unchanged (gallery and film counter included) and no error is
surfaced. -/
theorem midcapture_press_noop (env : CaptureEnv) (s : AppState)
    (h : s.isCapturing = true) :
    shutterPress env s = s ∧
      (shutterPress env s).photos.length = s.photos.length ∧
      (shutterPress env s).filmCount = s.filmCount := by
  have hs : shutterPress env s = s := by
    unfold shutterPress shutterDisabled
    simp [h]
  exact ⟨hs, by rw [hs], by rw [hs]⟩

/-- Witness for C7 on a concrete mid-capture session. -/
theorem midcapture_press_noop_witness :
    shutterPress (demoEnv 4) capturingState = capturingState ∧
      (shutterPress (demoEnv 4) capturingState).photos.length = capturingState.photos.length ∧
      (shutterPress (demoEnv 4) capturingState).filmCount = capturingState.filmCount :=
  midcapture_press_noop (demoEnv 4) capturingState rfl

/-- Claim C10: deleting an id that no Photo in the gallery carries
leaves the gallery unchanged and still bumps the film counter by one,
capped at 24. -/
theorem delete_absent_id_restores_exposure (s : AppState) (pid : String)
    (h : ∀ p ∈ s.photos, p.id ≠ pid) :
    (deletePhoto pid s).photos = s.photos ∧
      (deletePhoto pid s).filmCount = min (s.filmCount + 1) 24 := by
  refine ⟨?_, rfl⟩
  show s.photos.filter (fun p => p.id != pid) = s.photos
  exact List.filter_eq_self.mpr (fun p hp => by simp [h p hp])

/-- Witness for C10: the empty fresh gallery with an unknown id; the
counter is already at the ceiling, so it stays at 24. -/
theorem delete_absent_id_restores_exposure_witness :
    (deletePhoto "x" initialState).photos = initialState.photos ∧
      (deletePhoto "x" initialState).filmCount = min (initialState.filmCount + 1) 24 :=
  delete_absent_id_restores_exposure initialState "x"
    (by intro p hp; simp [initialState] at hp)

/-- Claim C4: drawing with the front-facing transform produces exactly
the horizontal flip, around the vertical center, of the back-facing
drawing of the identical frame; consequently the rasters stored by a
front-facing and a back-facing capture of the same frame differ exactly
by that flip. -/
theorem front_capture_mirrors_back (cssApply : String → Nat → Nat)
    (css : String) (frame : Frame) (env : CaptureEnv) (s : AppState) :
    drawCapture cssApply css true frame = hflip (drawCapture cssApply css false frame) ∧
      (newPhotoOf env { s with facingMode := FacingMode.user } frame).dataUrl.raster =
        hflip ((newPhotoOf env { s with facingMode := FacingMode.environment } frame).dataUrl.raster) :=
  ⟨rfl, rfl⟩

/-- Claim C5: for every FilterDescriptor in the fixed catalog, a
capture performed with that filter selected stores exactly that filter
identity in the produced Photo. -/
theorem filter_identity_roundtrip (F : FilterDescriptor) (hF : F ∈ filters)
    (env : CaptureEnv) (s : AppState) (frame : Frame)
    (hv : env.video = Option.some frame) (hc : env.canvasPresent = true)
    (hx : env.ctxPresent = true) (hf : 0 < s.filmCount)
    (hsel : s.currentFilter = F.name) :
    (capturePhoto env s).photos.head? = Option.some (newPhotoOf env s frame) ∧
      (newPhotoOf env s frame).filter = F.name := by
  rw [capturePhoto_ready env s frame hv hc hx hf]
  exact ⟨rfl, by simp [newPhotoOf, hsel]⟩

/-- Witness for C5 with the noir catalog entry on a fresh session. -/
theorem filter_identity_roundtrip_witness :
    (capturePhoto (demoEnv 7) noirStart).photos.head? =
        Option.some (newPhotoOf (demoEnv 7) noirStart demoFrame) ∧
      (newPhotoOf (demoEnv 7) noirStart demoFrame).filter = FilterType.noir :=
  filter_identity_roundtrip
    { name := FilterType.noir, label := "Noir", css := "grayscale(1) contrast(1.3) brightness(0.9)" }
    (by decide) (demoEnv 7) noirStart demoFrame rfl rfl rfl (by decide) rfl

end RetroCam

namespace RetroCam

/-- Helper: filtering away an id that occurs in a duplicate-free gallery
removes exactly one photo. -/
theorem filter_remove_present_id (l : List Photo) (pid : String)
    (hnd : (l.map Photo.id).Nodup) (hmem : ∃ p ∈ l, p.id = pid) :
    (l.filter (fun p => p.id != pid)).length + 1 = l.length := by
  induction l with
  | nil => simp at hmem
  | cons a l ih =>
    simp only [List.map_cons, List.nodup_cons] at hnd
    by_cases ha : a.id = pid
    · have hkeep : l.filter (fun p => p.id != pid) = l := by
        apply List.filter_eq_self.mpr
        intro p hp
        simp only [bne_iff_ne, ne_eq]
        intro hpe
        apply hnd.1
        have hmm : p.id ∈ l.map Photo.id := List.mem_map_of_mem Photo.id hp
        rw [hpe, ← ha] at hmm
        exact hmm
      simp [List.filter_cons, ha, hkeep]
    · have hmem2 : ∃ p ∈ l, p.id = pid := by
        obtain ⟨p, hp, hpe⟩ := hmem
        rcases List.mem_cons.mp hp with rfl | hp2
        · exact absurd hpe ha
        · exact ⟨p, hp2, hpe⟩
      have hrec := ih hnd.2 hmem2
      simp only [List.filter_cons, bne_iff_ne, ne_eq, ha, not_false_iff, if_pos,
        decide_not, List.length_cons]
      simp only [List.length_cons] at hrec ⊢
      omega

/-- Claim C2: deleting an id present in a duplicate-free gallery removes
exactly that photo and restores exactly one exposure, capped at 24; and
concretely, capturing three photos from a fresh session leaves the
counter at 21, one deletion gives 22, and deleting the remaining two
gives 24, not 25. -/
theorem delete_restores_one_exposure_capped :
    (∀ (s : AppState) (pid : String),
        (s.photos.map Photo.id).Nodup →
        (∃ p ∈ s.photos, p.id = pid) →
        (deletePhoto pid s).photos.length + 1 = s.photos.length ∧
          (∀ p ∈ (deletePhoto pid s).photos, p.id ≠ pid) ∧
          (deletePhoto pid s).filmCount = min (s.filmCount + 1) 24) ∧
      scenarioAfter3.filmCount = 21 ∧
      (deletePhoto "3" scenarioAfter3).filmCount = 22 ∧
      (deletePhoto "3" scenarioAfter3).photos.length = 2 ∧
      (deletePhoto "1" (deletePhoto "2" (deletePhoto "3" scenarioAfter3))).filmCount = 24 := by
  refine ⟨fun s pid hnd hmem =>
    ⟨filter_remove_present_id s.photos pid hnd hmem, ?_, rfl⟩,
    by decide, by decide, by decide, by decide⟩
  intro p hp
  have hp2 : p ∈ s.photos.filter (fun q => q.id != pid) := hp
  have hpf := (List.mem_filter.mp hp2).2
  simpa using hpf

/-- Witness for C2: the concrete three-capture session with id 3 deleted. -/
theorem delete_restores_one_exposure_capped_witness :
    (deletePhoto "3" scenarioAfter3).photos.length + 1 = scenarioAfter3.photos.length ∧
      (∀ p ∈ (deletePhoto "3" scenarioAfter3).photos, p.id ≠ "3") ∧
      (deletePhoto "3" scenarioAfter3).filmCount = min (scenarioAfter3.filmCount + 1) 24 :=
  delete_restores_one_exposure_capped.1 scenarioAfter3 "3" (by decide) (by decide)

/-- Claim C3: on a ready source with film left, capture decrements the
counter by exactly one and prepends a Photo carrying the stringified
wall-clock id, a JPEG payload requested at quality 0.9 drawn through
the selected filter, the filter identity, and the capture timestamp;
concretely a fresh back-facing noir session captures to gallery
[Photo noir] with counter 23. -/
theorem capture_success_shape :
    (∀ (env : CaptureEnv) (s : AppState) (frame : Frame),
        env.video = Option.some frame → env.canvasPresent = true →
        env.ctxPresent = true → 0 < s.filmCount →
        (capturePhoto env s).filmCount = s.filmCount - 1 ∧
          (capturePhoto env s).photos = newPhotoOf env s frame :: s.photos ∧
          newPhotoOf env s frame =
            { id := toString env.now
              dataUrl :=
                { mime := "image/jpeg"
                  quality := (9 : ℚ) / 10
                  raster := drawCapture env.cssApply (cssFor s.currentFilter)
                    (s.facingMode == FacingMode.user) frame }
              filter := s.currentFilter
              timestamp := env.now }) ∧
      (capturePhoto (demoEnv 7) noirStart).photos.map Photo.filter = [FilterType.noir] ∧
      (capturePhoto (demoEnv 7) noirStart).filmCount = 23 := by
  refine ⟨fun env s frame hv hc hx hf => ?_, by decide, by decide⟩
  rw [capturePhoto_ready env s frame hv hc hx hf]
  exact ⟨rfl, rfl, rfl⟩

/-- Witness for C3 on the fresh noir session at wall time 7. -/
theorem capture_success_shape_witness :
    (capturePhoto (demoEnv 7) noirStart).filmCount = noirStart.filmCount - 1 ∧
      (capturePhoto (demoEnv 7) noirStart).photos =
        newPhotoOf (demoEnv 7) noirStart demoFrame :: noirStart.photos ∧
      newPhotoOf (demoEnv 7) noirStart demoFrame =
        { id := toString (demoEnv 7).now
          dataUrl :=
            { mime := "image/jpeg"
              quality := (9 : ℚ) / 10
              raster := drawCapture (demoEnv 7).cssApply (cssFor noirStart.currentFilter)
                (noirStart.facingMode == FacingMode.user) demoFrame }
          filter := noirStart.currentFilter
          timestamp := (demoEnv 7).now } :=
  capture_success_shape.1 (demoEnv 7) noirStart demoFrame rfl rfl rfl (by decide)

end RetroCam

namespace RetroCam

/-- Claim C6: every successful capture prepends its Photo to the front
of the gallery, so capturing P1 then P2 then P3 from an empty gallery
yields the newest-first order [P3, P2, P1]. -/
theorem gallery_newest_first :
    (∀ (env : CaptureEnv) (st : AppState) (frame : Frame),
        env.video = Option.some frame → env.canvasPresent = true →
        env.ctxPresent = true → 0 < st.filmCount →
        (capturePhoto env st).photos = newPhotoOf env st frame :: st.photos) ∧
      (∀ (cssApply : String → Nat → Nat) (frame : Frame) (t1 t2 t3 : Nat) (s : AppState),
        s.photos = [] → 3 ≤ s.filmCount →
        (capturePhoto (readyEnv cssApply frame t3)
            (capturePhoto (readyEnv cssApply frame t2)
              (capturePhoto (readyEnv cssApply frame t1) s))).photos =
          [newPhotoOf (readyEnv cssApply frame t3)
              (capturePhoto (readyEnv cssApply frame t2)
                (capturePhoto (readyEnv cssApply frame t1) s)) frame,
            newPhotoOf (readyEnv cssApply frame t2)
              (capturePhoto (readyEnv cssApply frame t1) s) frame,
            newPhotoOf (readyEnv cssApply frame t1) s frame]) := by
  constructor
  · intro env st frame hv hc hx hf
    rw [capturePhoto_ready env st frame hv hc hx hf]
  · intro cssApply frame t1 t2 t3 s hp hf
    have h1 := capturePhoto_ready (readyEnv cssApply frame t1) s frame rfl rfl rfl
      (by omega)
    have hf1 : 0 < (capturePhoto (readyEnv cssApply frame t1) s).filmCount := by
      rw [h1]
      show 0 < s.filmCount - 1
      omega
    have h2 := capturePhoto_ready (readyEnv cssApply frame t2)
      (capturePhoto (readyEnv cssApply frame t1) s) frame rfl rfl rfl hf1
    have hf2 : 0 < (capturePhoto (readyEnv cssApply frame t2)
        (capturePhoto (readyEnv cssApply frame t1) s)).filmCount := by
      rw [h2, h1]
      show 0 < s.filmCount - 1 - 1
      omega
    have h3 := capturePhoto_ready (readyEnv cssApply frame t3)
      (capturePhoto (readyEnv cssApply frame t2)
        (capturePhoto (readyEnv cssApply frame t1) s)) frame rfl rfl rfl hf2
    have p3 : (capturePhoto (readyEnv cssApply frame t3)
        (capturePhoto (readyEnv cssApply frame t2)
          (capturePhoto (readyEnv cssApply frame t1) s))).photos =
        newPhotoOf (readyEnv cssApply frame t3)
          (capturePhoto (readyEnv cssApply frame t2)
            (capturePhoto (readyEnv cssApply frame t1) s)) frame ::
          (capturePhoto (readyEnv cssApply frame t2)
            (capturePhoto (readyEnv cssApply frame t1) s)).photos := by
      rw [h3]
    have p2 : (capturePhoto (readyEnv cssApply frame t2)
        (capturePhoto (readyEnv cssApply frame t1) s)).photos =
        newPhotoOf (readyEnv cssApply frame t2)
          (capturePhoto (readyEnv cssApply frame t1) s) frame ::
          (capturePhoto (readyEnv cssApply frame t1) s).photos := by
      rw [h2]
    have p1 : (capturePhoto (readyEnv cssApply frame t1) s).photos =
        newPhotoOf (readyEnv cssApply frame t1) s frame :: s.photos := by
      rw [h1]
    rw [p3, p2, p1, hp]

/-- Witness for C6: three captures at wall times 1, 2, 3 on the fresh
session produce the newest-first gallery. -/
theorem gallery_newest_first_witness :
    (capturePhoto (readyEnv idApply demoFrame 3)
        (capturePhoto (readyEnv idApply demoFrame 2)
          (capturePhoto (readyEnv idApply demoFrame 1) initialState))).photos =
      [newPhotoOf (readyEnv idApply demoFrame 3)
          (capturePhoto (readyEnv idApply demoFrame 2)
            (capturePhoto (readyEnv idApply demoFrame 1) initialState)) demoFrame,
        newPhotoOf (readyEnv idApply demoFrame 2)
          (capturePhoto (readyEnv idApply demoFrame 1) initialState) demoFrame,
        newPhotoOf (readyEnv idApply demoFrame 1) initialState demoFrame] :=
  gallery_newest_first.2 idApply demoFrame 1 2 3 initialState rfl (by decide)

end RetroCam

namespace RetroCam

/-- Claim C9: every acquire stops the tracks of the prior handle before
storing the fresh one, and over the concrete mount, switch, switch
sequence (front to back to front) exactly one handle is outstanding
after every step; at the end the release count equals the acquire count
minus one, with only the final handle still open. -/
theorem switch_twice_one_outstanding :
    (∀ (c : CameraState) (h : Nat), c.stream = Option.some h →
        h ∈ (startCameraOk c).stopped ∧
          (startCameraOk c).stream = Option.some c.nextHandle) ∧
      outstanding (mountEffect initCamera) = {0} ∧
      outstanding (switchCameraEffect (mountEffect initCamera)) = {1} ∧
      outstanding (switchCameraEffect (switchCameraEffect (mountEffect initCamera))) = {2} ∧
      (mountEffect initCamera).facingMode = FacingMode.user ∧
      (switchCameraEffect (mountEffect initCamera)).facingMode = FacingMode.environment ∧
      (switchCameraEffect (switchCameraEffect (mountEffect initCamera))).facingMode =
        FacingMode.user ∧
      releaseCount (switchCameraEffect (switchCameraEffect (mountEffect initCamera))) =
        acquireCount (switchCameraEffect (switchCameraEffect (mountEffect initCamera))) - 1 ∧
      (switchCameraEffect (switchCameraEffect (mountEffect initCamera))).stream =
        Option.some 2 ∧
      2 ∉ (switchCameraEffect (switchCameraEffect (mountEffect initCamera))).stopped := by
  refine ⟨?_, by decide, by decide, by decide, by decide, by decide, by decide,
    by decide, by decide, by decide⟩
  intro c h hc
  constructor
  · show h ∈ stopTracks c.stream c.stopped
    rw [hc]
    exact Finset.mem_insert_self h _
  · rfl

/-- Witness for C9: the first switch releases handle 0 and stores handle 1. -/
theorem switch_twice_one_outstanding_witness :
    0 ∈ (startCameraOk (mountEffect initCamera)).stopped ∧
      (startCameraOk (mountEffect initCamera)).stream =
        Option.some (mountEffect initCamera).nextHandle :=
  switch_twice_one_outstanding.1 (mountEffect initCamera) 0 (by decide)

/-- Helper: along a run of captures at strictly increasing wall times on
a gallery whose photos are older than all of them, ids remain the
stringified timestamps and the timestamp list remains strictly
decreasing. -/
theorem captureRun_inv (cssApply : String → Nat → Nat) (frame : Frame) :
    ∀ (ts : List Nat) (s : AppState),
      (ts.length : Int) ≤ s.filmCount →
      ts.Chain' (· < ·) →
      (∀ p ∈ s.photos, ∀ t ∈ ts, p.timestamp < t) →
      (∀ p ∈ s.photos, p.id = toString p.timestamp) →
      (s.photos.map Photo.timestamp).Chain' (fun a b => b < a) →
      (∀ p ∈ (captureRun cssApply frame ts s).photos, p.id = toString p.timestamp) ∧
        ((captureRun cssApply frame ts s).photos.map Photo.timestamp).Chain'
          (fun a b => b < a) := by
  intro ts
  induction ts with
  | nil => intro s _ _ _ hid hch; exact ⟨hid, hch⟩
  | cons t rest ih =>
    intro s hf hmono hlt hid hch
    have hf0 : 0 < s.filmCount := by
      simp only [List.length_cons] at hf
      omega
    have hstep := capturePhoto_ready (readyEnv cssApply frame t) s frame rfl rfl rfl hf0
    have hrun : captureRun cssApply frame (t :: rest) s =
        captureRun cssApply frame rest (capturePhoto (readyEnv cssApply frame t) s) := rfl
    rw [hrun]
    have hphotos : (capturePhoto (readyEnv cssApply frame t) s).photos =
        newPhotoOf (readyEnv cssApply frame t) s frame :: s.photos := by rw [hstep]
    have hfilm : (capturePhoto (readyEnv cssApply frame t) s).filmCount =
        s.filmCount - 1 := by rw [hstep]
    have htrest : ∀ u ∈ rest, t < u := by
      have hpw := List.chain'_iff_pairwise.mp hmono
      exact (List.pairwise_cons.mp hpw).1
    refine ih (capturePhoto (readyEnv cssApply frame t) s) ?_ hmono.tail ?_ ?_ ?_
    · rw [hfilm]
      simp only [List.length_cons] at hf
      omega
    · rw [hphotos]
      intro p hp u hu
      rcases List.mem_cons.mp hp with rfl | hp2
      · exact htrest u hu
      · exact hlt p hp2 u (List.mem_cons_of_mem t hu)
    · rw [hphotos]
      intro p hp
      rcases List.mem_cons.mp hp with rfl | hp2
      · rfl
      · exact hid p hp2
    · rw [hphotos]
      rw [List.map_cons, List.chain'_cons']
      refine ⟨?_, hch⟩
      intro y hy
      rcases hx : s.photos with _ | ⟨q, l⟩
      · rw [hx] at hy; simp at hy
      · rw [hx] at hy
        simp only [List.map_cons, List.head?_cons, Option.mem_def, Option.some_inj] at hy
        subst hy
        exact hlt q (by rw [hx]; exact List.mem_cons_self q l) t (List.mem_cons_self t rest)

end RetroCam

namespace RetroCam

/-- Claim C8: for a run of captures at strictly increasing wall-clock
times on a fresh gallery, every photo id is derived from its capture
time (the stringified timestamp), the gallery timestamps strictly
decrease newest-first so a later capture carries a later time, and all
photo ids are pairwise distinct. -/
theorem photo_ids_unique_monotonic (cssApply : String → Nat → Nat) (frame : Frame)
    (ts : List Nat) (s : AppState) (hp : s.photos = [])
    (hf : (ts.length : Int) ≤ s.filmCount) (hmono : ts.Chain' (· < ·)) :
    (∀ p ∈ (captureRun cssApply frame ts s).photos, p.id = toString p.timestamp) ∧
      ((captureRun cssApply frame ts s).photos.map Photo.timestamp).Chain'
        (fun a b => b < a) ∧
      (captureRun cssApply frame ts s).photos.Pairwise (fun p q => p.id ≠ q.id) := by
  have base := captureRun_inv cssApply frame ts s hf hmono
    (by rw [hp]; intro p hp2; simp at hp2)
    (by rw [hp]; intro p hp2; simp at hp2)
    (by rw [hp]; simp)
  refine ⟨base.1, base.2, ?_⟩
  have hpw : ((captureRun cssApply frame ts s).photos.map Photo.timestamp).Pairwise
      (fun a b => b < a) := List.chain'_iff_pairwise.mp base.2
  have hpw2 : (captureRun cssApply frame ts s).photos.Pairwise
      (fun p q => q.timestamp < p.timestamp) := List.pairwise_map.mp hpw
  refine hpw2.imp_of_mem ?_
  intro a b ha hb hrel heq
  have h1 := base.1 a ha
  have h2 := base.1 b hb
  have hts : toString a.timestamp = toString b.timestamp := by
    rw [← h1, ← h2, heq]
  have := nat_toString_injective hts
  omega

/-- Witness for C8: three captures at times 1, 2, 3 on the fresh session. -/
theorem photo_ids_unique_monotonic_witness :
    (∀ p ∈ (captureRun idApply demoFrame [1, 2, 3] initialState).photos,
        p.id = toString p.timestamp) ∧
      ((captureRun idApply demoFrame [1, 2, 3] initialState).photos.map
        Photo.timestamp).Chain' (fun a b => b < a) ∧
      (captureRun idApply demoFrame [1, 2, 3] initialState).photos.Pairwise
        (fun p q => p.id ≠ q.id) :=
  photo_ids_unique_monotonic idApply demoFrame [1, 2, 3] initialState rfl
    (by decide) (by norm_num [List.chain'_cons])

end RetroCam
